import Mathlib

/-!
Verification of the KML-viewer geometry ingestion pipeline (src/app.py)
against its natural-language specification.

The Python script is shallowly embedded below.  Pure helper functions of the
script (shape_3d_to_2d, preprocess_gdf, is_valid_polygon, the Drive-URL
normalization, check_valid_geometry, the metric formulas) are translated to
Lean functions; the stateful Streamlit request (session cache, warnings,
error-and-stop control flow, lines 53-116 of app.py) is modelled as an
explicit function `run` from session state and source to a result record
carrying the new state, the emitted user-visible events and the outcome.

External collaborators (geopandas file reading, pyproj reprojection, the
GEOS zero-buffer) are parameters of the embedding: the script only composes
them, so every theorem quantifies over their behaviour.
-/

namespace KML

/-! ### Python string primitives

The Drive-URL normalization in app.py uses `str.startswith`, `str.replace`
and `str.split`.  They are re-implemented here on character lists with
Python semantics (`replace` rewrites every non-overlapping occurrence from
the left; `split` on a one-character separator), structurally recursive so
that concrete instances evaluate inside the kernel. -/

/-- Replace every non-overlapping occurrence of `pat` (scanned left to
right) by `rep`, with an explicit fuel argument for structural recursion;
called with fuel = length of the string, which is always sufficient. -/
def replaceAllFuel (pat rep : List Char) : Nat → List Char → List Char
  | _, [] => []
  | 0, s => s
  | fuel + 1, a :: rest =>
    if pat ≠ [] ∧ pat.isPrefixOf (a :: rest) then
      rep ++ replaceAllFuel pat rep fuel ((a :: rest).drop pat.length)
    else
      a :: replaceAllFuel pat rep fuel rest

/-- Python `s.replace(old, new)`. -/
def pyReplace (s old new : String) : String :=
  ⟨replaceAllFuel old.data new.data s.data.length s.data⟩

/-- Split a character list at every occurrence of the separator `c`;
always returns at least one (possibly empty) segment, like Python split. -/
def splitChar (c : Char) : List Char → List (List Char)
  | [] => [[]]
  | a :: rest =>
    let r := splitChar c rest
    if a = c then [] :: r else (a :: r.headD []) :: r.tail

/-- Python `s.split(sep)` for a one-character separator. -/
def pySplit (s : String) (c : Char) : List String :=
  (splitChar c s.data).map String.mk

/-- Python `s.startswith(pre)`. -/
def pyStartsWith (s pre : String) : Bool :=
  pre.data.isPrefixOf s.data

/-! ### Geometry data model

Coordinates are embedded as exact rationals (the script's float arithmetic
is idealized as exact arithmetic).  A coordinate optionally carries a third
(elevation) value, mirroring shapely's 2D/3D coordinate sequences.  `Shape`
covers the shapely geometry types the pipeline can meet; multi-geometries
nest their parts' coordinate rings. -/

structure Coord where
  x : ℚ
  y : ℚ
  z : Option ℚ
deriving DecidableEq, Repr

inductive Shape where
  | point : Coord → Shape
  | lineString : List Coord → Shape
  | polygon : List (List Coord) → Shape
  | multiPoint : List Coord → Shape
  | multiLineString : List (List Coord) → Shape
  | multiPolygon : List (List (List Coord)) → Shape
deriving DecidableEq, Repr

/-- Shapely `geometry.type` / `geom_type`: the geometry's type name. -/
def Shape.typeName : Shape → String
  | .point _ => "Point"
  | .lineString _ => "LineString"
  | .polygon _ => "Polygon"
  | .multiPoint _ => "MultiPoint"
  | .multiLineString _ => "MultiLineString"
  | .multiPolygon _ => "MultiPolygon"

/-- All vertex coordinates of a shape, in traversal order. -/
def Shape.coords : Shape → List Coord
  | .point c => [c]
  | .lineString cs => cs
  | .polygon rs => rs.flatten
  | .multiPoint cs => cs
  | .multiLineString ls => ls.flatten
  | .multiPolygon ps => ps.flatten.flatten

/-- Shapely `geometry.is_empty`: the shape has no coordinates. -/
def Shape.is_empty (s : Shape) : Bool :=
  s.coords.isEmpty

/-- Shapely `shape.has_z`: some vertex carries a third coordinate. -/
def Shape.has_z (s : Shape) : Bool :=
  s.coords.any fun c => c.z.isSome

/-- Apply a coordinate transformation to every vertex of a shape,
preserving the ring/part structure — shapely.ops.transform. -/
def mapCoords (f : Coord → Coord) : Shape → Shape
  | .point c => .point (f c)
  | .lineString cs => .lineString (cs.map f)
  | .polygon rs => .polygon (rs.map (List.map f))
  | .multiPoint cs => .multiPoint (cs.map f)
  | .multiLineString ls => .multiLineString (ls.map (List.map f))
  | .multiPolygon ps => .multiPolygon (ps.map (List.map (List.map f)))

/-- The vertex transformation `lambda x, y, z: (x, y)` of app.py line 13:
keep (x, y), drop the third coordinate. -/
def dropZ (c : Coord) : Coord :=
  ⟨c.x, c.y, none⟩

/-- app.py lines 11-15: `shape_3d_to_2d` — if the shape has a third
coordinate, drop it at every vertex, else return the shape unchanged. -/
def shape_3d_to_2d (s : Shape) : Shape :=
  if s.has_z then mapCoords dropZ s else s

/-! ### Datasets (GeoDataFrames) -/

/-- One record of a vector dataset: a geometry plus its attribute mapping
(the non-geometry columns of the GeoDataFrame row). -/
structure Record where
  geometry : Shape
  attrs : List (String × String)
deriving DecidableEq, Repr

/-- A GeoDataFrame as read by geopandas: an ordered sequence of records,
row i carrying index label i (a RangeIndex). -/
abbrev GeoDataFrame := List Record

/-- Replace the geometry column by the image of a per-geometry function,
leaving every attribute column untouched (models both
`gdf["geometry"].apply(f)` assignment and `gdf.buffer(0)` / `gdf.to_crs`
column replacement). -/
def set_geometry (f : Shape → Shape) (gdf : GeoDataFrame) : GeoDataFrame :=
  gdf.map fun r => { r with geometry := f r.geometry }

/-- app.py lines 18-22: `preprocess_gdf` — reproject to EPSG:7761, drop
third coordinates, zero-buffer.  The reprojection (`to_crs`) and the
zero-distance buffer (`buffer(0)`) are external collaborators (pyproj,
GEOS) and are taken as parameters, applied per geometry. -/
def preprocess_gdf (to_crs buffer0 : Shape → Shape) (gdf : GeoDataFrame) : GeoDataFrame :=
  set_geometry buffer0 (set_geometry shape_3d_to_2d (set_geometry to_crs gdf))

/-- app.py lines 25-27: `is_valid_polygon` on a one-row frame — the
geometry's type is exactly "Polygon" and the geometry is not empty. -/
def is_valid_polygon (r : Record) : Bool :=
  (r.geometry.typeName == "Polygon") && !r.geometry.is_empty

/-- app.py lines 81-84: the `for i in range(len(input_gdf))` scan — index
of the first record satisfying `is_valid_polygon`, if any (`none` models
the for-else fallthrough of lines 85-87). -/
def scan_first_valid (gdf : GeoDataFrame) : Option Nat :=
  gdf.findIdx? is_valid_polygon

/-! ### Sources and Drive-URL normalization -/

/-- The request's source identifier: a URL string (query parameter) or an
uploaded-file handle. -/
inductive Source where
  | url : String → Source
  | upload : String → Source
deriving DecidableEq, Repr

def drive_file_head : String := "https://drive.google.com/file/d/"

def drive_open_head : String := "https://drive.google.com/open?id="

def uc_head : String := "https://drive.google.com/uc?id="

/-- app.py lines 69-75: Drive share-link normalization.  A string URL
starting with the "file/d/" shape has the prefix removed (every occurrence,
as Python `replace` does), is split on "/" and its first segment taken as
the ID; one starting with the "open?id=" shape has that prefix removed; any
other URL, and every uploaded file, passes through unchanged. -/
def normalize_source : Source → Source
  | .upload h => .upload h
  | .url u =>
    if pyStartsWith u drive_file_head then
      .url (uc_head ++ (pySplit (pyReplace u drive_file_head "") '/').headD "")
    else if pyStartsWith u drive_open_head then
      .url (uc_head ++ pyReplace u drive_open_head "")
    else
      .url u

/-- True when the source is a string URL matching one of the two Drive
share-link shapes, i.e. exactly when normalization rewrites it. -/
def is_drive_link : Source → Bool
  | .url u => pyStartsWith u drive_file_head || pyStartsWith u drive_open_head
  | .upload _ => false

/-! ### Errors, session state, and the request as a step function -/

inductive PipelineError where
  | noPolygonFound
  | invalidGeometryType (actual : String)
deriving DecidableEq, Repr

/-- app.py lines 109-116: `check_valid_geometry` — error (carrying the
actual type name) when the selected geometry's type is not exactly
"Polygon", success otherwise. -/
def check_valid_geometry (r : Record) : Except PipelineError Unit :=
  if r.geometry.typeName ≠ "Polygon" then
    .error (.invalidGeometryType r.geometry.typeName)
  else
    .ok ()

/-- Streamlit `st.session_state` slice used by the script: the cached
source identifier and the cached dataset (absent keys are `none`). -/
structure SessionState where
  file_url : Option Source
  input_gdf : Option GeoDataFrame
deriving DecidableEq, Repr

/-- User-visible side effects of one request, in emission order. -/
inductive Event where
  | normalizedURL
  | multiRecordWarning
  | scannedForPolygon
  | typeChecked (actual : String)
deriving DecidableEq, Repr

/-- How the request ends: rendering (and computing metrics for) a record,
halting with a pipeline error (`st.error` + `st.stop`), or an uncaught
pandas exception (`.item()` on an empty frame — unreachable from states the
script itself produces). -/
inductive Outcome where
  | rendered : Record → Outcome
  | halted : PipelineError → Outcome
  | crashed : Outcome
deriving DecidableEq, Repr

structure RunResult where
  state : SessionState
  events : List Event
  outcome : Outcome
  used_gdf : Option GeoDataFrame
deriving DecidableEq, Repr

/-- External collaborators of the script: the vector-file reader
(`gpd.read_file`), the reprojection to the planar CRS (`to_crs(epsg=7761)`)
and the zero-distance buffer (`buffer(0)`). -/
structure Collaborators where
  read_file : Source → GeoDataFrame
  to_crs : Shape → Shape
  buffer0 : Shape → Shape

/-- app.py line 64: the cache test — both session keys present and the
stored source identifier equal to the requested (raw, pre-normalization)
one. -/
def cache_hit (st : SessionState) (file_url : Source) : Bool :=
  (st.file_url == some file_url) && st.input_gdf.isSome

/-- app.py lines 106-116 (and onward): select the record with index label
0, re-validate its type, and on success proceed to rendering and metrics
with that record. -/
def finish_request (st : SessionState) (evs : List Event) (gdf : GeoDataFrame) : RunResult :=
  match gdf.head? with
  | none => { state := st, events := evs, outcome := .crashed, used_gdf := some gdf }
  | some r =>
    match check_valid_geometry r with
    | .error e =>
      { state := st, events := evs ++ [.typeChecked r.geometry.typeName],
        outcome := .halted e, used_gdf := some gdf }
    | .ok _ =>
      { state := st, events := evs ++ [.typeChecked r.geometry.typeName],
        outcome := .rendered r, used_gdf := some gdf }

/-- app.py lines 67-90 (cache-miss branch): store the raw identifier,
normalize it, read and preprocess the file, warn when the dataset has more
than one record, scan for the first valid polygon (halting with
NoPolygonFound when there is none), cache the dataset, then fall through to
`finish_request`.  Note that the index found by the scan is not used: line
106 selects index 0 regardless. -/
def fresh_load (C : Collaborators) (st : SessionState) (file_url : Source) : RunResult :=
  let st1 : SessionState := { st with file_url := some file_url }
  let input_gdf := preprocess_gdf C.to_crs C.buffer0 (C.read_file (normalize_source file_url))
  let evs := (if is_drive_link file_url then [Event.normalizedURL] else [])
    ++ (if 1 < input_gdf.length then [Event.multiRecordWarning] else [])
    ++ [Event.scannedForPolygon]
  match scan_first_valid input_gdf with
  | none =>
    { state := st1, events := evs, outcome := .halted .noPolygonFound,
      used_gdf := some input_gdf }
  | some _ =>
    finish_request { st1 with input_gdf := some input_gdf } evs input_gdf

/-- One Streamlit request (app.py lines 64-116): on a cache hit use the
cached dataset and go straight to selection and re-validation; otherwise
perform a fresh load. -/
def run (C : Collaborators) (st : SessionState) (file_url : Source) : RunResult :=
  if cache_hit st file_url then
    finish_request st [] (st.input_gdf.getD [])
  else
    fresh_load C st file_url

/-! ### Metrics (app.py lines 159-163 and the display table)

The planar area, boundary length and centroid the script reads off the
selected geometry are computed by the geometry collaborator (shapely/GEOS);
they are embedded here by their standard definitions: shoelace area (holes
subtracted), summed Euclidean segment lengths, and the area-weighted
polygon centroid. -/

/-- Consecutive vertex pairs (the segments) of a ring or line. -/
def ringSegs (cs : List Coord) : List (Coord × Coord) :=
  cs.zip cs.tail

/-- Cross term of two vertices, the shoelace summand. -/
def cross (p q : Coord) : ℚ :=
  p.x * q.y - q.x * p.y

/-- Twice the signed area of a closed ring (first vertex repeated last). -/
def shoelaceSum (cs : List Coord) : ℚ :=
  ((ringSegs cs).map fun pq => cross pq.1 pq.2).sum

/-- Unsigned area enclosed by one ring. -/
def ringArea (cs : List Coord) : ℚ :=
  |shoelaceSum cs| / 2

/-- Area of a polygon given as exterior ring followed by holes. -/
def polyArea : List (List Coord) → ℚ
  | [] => 0
  | ext :: holes => ringArea ext - (holes.map ringArea).sum

/-- Shapely `.area`: polygon (and multipolygon) area; non-areal types have
area 0. -/
def Shape.area : Shape → ℚ
  | .polygon rs => polyArea rs
  | .multiPolygon ps => (ps.map polyArea).sum
  | _ => 0

/-- Euclidean length of one segment. -/
noncomputable def segLen (p q : Coord) : ℝ :=
  Real.sqrt (((q.x - p.x) ^ 2 + (q.y - p.y) ^ 2 : ℚ) : ℝ)

/-- Summed segment lengths of a ring or line. -/
noncomputable def ringLen (cs : List Coord) : ℝ :=
  ((ringSegs cs).map fun pq => segLen pq.1 pq.2).sum

/-- Shapely `.length`: total boundary length. -/
noncomputable def Shape.length : Shape → ℝ
  | .point _ => 0
  | .multiPoint _ => 0
  | .lineString cs => ringLen cs
  | .multiLineString ls => (ls.map ringLen).sum
  | .polygon rs => (rs.map ringLen).sum
  | .multiPolygon ps => (ps.map fun rs => (rs.map ringLen).sum).sum

/-- Area-weighted centroid of a polygon's rings (holes, oriented opposite
to the exterior as GEOS normalizes them, contribute negatively). -/
def centroidOfRings (rings : List (List Coord)) : ℚ × ℚ :=
  let segs := (rings.map ringSegs).flatten
  let a2 := (segs.map fun pq => cross pq.1 pq.2).sum
  let sx := (segs.map fun pq => (pq.1.x + pq.2.x) * cross pq.1 pq.2).sum
  let sy := (segs.map fun pq => (pq.1.y + pq.2.y) * cross pq.1 pq.2).sum
  (sx / (3 * a2), sy / (3 * a2))

/-- Shapely `.centroid` for polygons; the script only reads it after the
Polygon type check, so other types default to the origin. -/
def Shape.centroid : Shape → ℚ × ℚ
  | .polygon rs => centroidOfRings rs
  | _ => (0, 0)

/-- app.py line 162: `stats_df["Area (ha)"]` — planar area divided by
10000. -/
def stats_area_ha (r : Record) : ℚ :=
  r.geometry.area / 10000

/-- app.py line 163: `stats_df["Perimeter (m)"]` — planar boundary
length. -/
noncomputable def stats_perimeter_m (r : Record) : ℝ :=
  r.geometry.length

/-- app.py line 161 before reprojection: the planar centroid. -/
def stats_centroid (r : Record) : ℚ × ℚ :=
  r.geometry.centroid

/-- Display rounding of the metrics table (the `:.2f` format of app.py
lines 192 and 196), idealized on exact rationals: round to 2 decimal
places. -/
def round2 (q : ℚ) : ℚ :=
  (round (q * 100) : ℤ) / 100

/-- Display rounding to 2 decimal places on the real-valued perimeter. -/
noncomputable def round2r (x : ℝ) : ℝ :=
  ((round (x * 100) : ℤ) : ℝ) / 100

/-! ### Concrete fixtures used by witnesses and counterexamples -/

/-- The closed unit-square ring (0,0),(0,1),(1,1),(1,0),(0,0). -/
def unitSquareRing : List Coord :=
  [⟨0, 0, none⟩, ⟨0, 1, none⟩, ⟨1, 1, none⟩, ⟨1, 0, none⟩, ⟨0, 0, none⟩]

def unitSquare : Shape := .polygon [unitSquareRing]

def squareRec : Record := ⟨unitSquare, []⟩

def pointRec : Record := ⟨.point ⟨0, 0, none⟩, []⟩

def mpolyRec : Record := ⟨.multiPolygon [[unitSquareRing]], []⟩

def squareRec2 : Record :=
  ⟨.polygon [[⟨2, 2, none⟩, ⟨2, 3, none⟩, ⟨3, 3, none⟩, ⟨3, 2, none⟩, ⟨2, 2, none⟩]], []⟩

/-- A dataset whose records have geometry types
[Point, MultiPolygon, Polygon, Polygon]. -/
def mixed_gdf : GeoDataFrame := [pointRec, mpolyRec, squareRec, squareRec2]

/-- Collaborators whose reader always yields `gdf` and whose reprojection
and buffer are the identity. -/
def idCollab (gdf : GeoDataFrame) : Collaborators :=
  ⟨fun _ => gdf, id, id⟩

/-- The unit square with an elevation on every vertex. -/
def sq3d : Shape :=
  .polygon [[⟨0, 0, some 5⟩, ⟨0, 1, some 6⟩, ⟨1, 1, some 7⟩, ⟨1, 0, some 8⟩, ⟨0, 0, some 5⟩]]

/-! ### Helper lemmas -/

theorem preprocess_gdf_eq_map (f g : Shape → Shape) (gdf : GeoDataFrame) :
    preprocess_gdf f g gdf
      = gdf.map fun r => ⟨g (shape_3d_to_2d (f r.geometry)), r.attrs⟩ := by
  simp only [preprocess_gdf, set_geometry, List.map_map]
  rfl

theorem preprocess_gdf_length (f g : Shape → Shape) (gdf : GeoDataFrame) :
    (preprocess_gdf f g gdf).length = gdf.length := by
  rw [preprocess_gdf_eq_map, List.length_map]

theorem preprocess_gdf_attrs (f g : Shape → Shape) (gdf : GeoDataFrame) :
    (preprocess_gdf f g gdf).map Record.attrs = gdf.map Record.attrs := by
  rw [preprocess_gdf_eq_map, List.map_map]
  rfl

theorem map_fixed {α : Type} {f : α → α} :
    ∀ l : List α, (∀ x ∈ l, f x = x) → l.map f = l := by
  intro l h
  induction l with
  | nil => rfl
  | cons a t ih =>
    simp only [List.mem_cons, forall_eq_or_imp] at h
    simp [h.1, ih h.2]

theorem coords_mapCoords (f : Coord → Coord) (s : Shape) :
    (mapCoords f s).coords = s.coords.map f := by
  cases s <;> simp [mapCoords, Shape.coords, List.map_flatten, List.map_map]

theorem hasZ_mapCoords_dropZ (s : Shape) : (mapCoords dropZ s).has_z = false := by
  rw [Shape.has_z, coords_mapCoords, List.any_map]
  simp [Function.comp, dropZ]

theorem mapCoords_mapCoords (f g : Coord → Coord) (s : Shape) :
    mapCoords f (mapCoords g s) = mapCoords (f ∘ g) s := by
  cases s <;> simp [mapCoords, List.map_map]

theorem mapCoords_fixed (f : Coord → Coord) (s : Shape)
    (h : ∀ c ∈ s.coords, f c = c) : mapCoords f s = s := by
  cases s with
  | point c => exact congrArg Shape.point (h c (by simp [Shape.coords]))
  | lineString cs => exact congrArg Shape.lineString (map_fixed cs h)
  | multiPoint cs => exact congrArg Shape.multiPoint (map_fixed cs h)
  | polygon rs =>
    refine congrArg Shape.polygon
      (map_fixed rs fun ring hr => map_fixed ring fun c hc => h c ?_)
    simp only [Shape.coords, List.mem_flatten]
    exact ⟨ring, hr, hc⟩
  | multiLineString ls =>
    refine congrArg Shape.multiLineString
      (map_fixed ls fun ring hr => map_fixed ring fun c hc => h c ?_)
    simp only [Shape.coords, List.mem_flatten]
    exact ⟨ring, hr, hc⟩
  | multiPolygon ps =>
    refine congrArg Shape.multiPolygon
      (map_fixed ps fun rs hrs => map_fixed rs fun ring hr => map_fixed ring fun c hc => h c ?_)
    simp only [Shape.coords, List.mem_flatten]
    exact ⟨ring, ⟨rs, hrs, hr⟩, hc⟩

theorem finish_request_state (st : SessionState) (evs : List Event) (gdf : GeoDataFrame) :
    (finish_request st evs gdf).state = st := by
  cases h : gdf.head? with
  | none => simp [finish_request, h]
  | some r => cases hc : check_valid_geometry r <;> simp [finish_request, h, hc]

theorem finish_request_used (st : SessionState) (evs : List Event) (gdf : GeoDataFrame) :
    (finish_request st evs gdf).used_gdf = some gdf := by
  cases h : gdf.head? with
  | none => simp [finish_request, h]
  | some r => cases hc : check_valid_geometry r <;> simp [finish_request, h, hc]

theorem finish_request_events (st : SessionState) (evs : List Event) (gdf : GeoDataFrame) :
    (finish_request st evs gdf).events = evs
      ∨ ∃ t, (finish_request st evs gdf).events = evs ++ [Event.typeChecked t] := by
  cases h : gdf.head? with
  | none => left; simp [finish_request, h]
  | some r =>
    right
    cases hc : check_valid_geometry r <;>
      exact ⟨r.geometry.typeName, by simp [finish_request, h, hc]⟩

theorem finish_request_no_npf (st : SessionState) (evs : List Event) (gdf : GeoDataFrame) :
    (finish_request st evs gdf).outcome ≠ Outcome.halted .noPolygonFound := by
  cases h : gdf.head? with
  | none => simp [finish_request, h]
  | some r =>
    by_cases ht : r.geometry.typeName = "Polygon" <;>
      simp [finish_request, h, check_valid_geometry, ht]

theorem run_hit (C : Collaborators) (st : SessionState) (src : Source)
    (h : cache_hit st src = true) :
    run C st src = finish_request st [] (st.input_gdf.getD []) := by
  simp [run, h]

theorem run_miss (C : Collaborators) (st : SessionState) (src : Source)
    (h : cache_hit st src = false) :
    run C st src = fresh_load C st src := by
  simp [run, h]

theorem run_rendered_state (C : Collaborators) (st : SessionState) (src : Source) (r : Record)
    (h : (run C st src).outcome = .rendered r) :
    (run C st src).state.file_url = some src
      ∧ (run C st src).state.input_gdf.isSome = true
      ∧ (run C st src).used_gdf = (run C st src).state.input_gdf := by
  by_cases hc : cache_hit st src = true
  · obtain ⟨h1, h2⟩ : st.file_url = some src ∧ st.input_gdf.isSome = true := by
      simpa [cache_hit] using hc
    rw [run_hit C st src hc, finish_request_state, finish_request_used]
    refine ⟨h1, h2, ?_⟩
    cases hgdf : st.input_gdf with
    | none => rw [hgdf] at h2; simp at h2
    | some g => simp [hgdf]
  · have hc' : cache_hit st src = false := by simpa using hc
    rw [run_miss C st src hc'] at h ⊢
    unfold fresh_load at h ⊢
    cases hscan : scan_first_valid
        (preprocess_gdf C.to_crs C.buffer0 (C.read_file (normalize_source src))) with
    | none => simp [hscan] at h
    | some i =>
      simp only [hscan] at h ⊢
      rw [finish_request_state, finish_request_used]
      exact ⟨rfl, rfl, rfl⟩

/-! ### Claim theorems -/

/-- C3: load normalizes Drive share-link URL strings and passes everything
else through unchanged — the "file/d/ABC123/view" shape and the
"open?id=ABC123" shape both become "uc?id=ABC123", every string URL
matching neither Drive prefix passes through unchanged, and every
uploaded-file handle passes through unchanged. -/
theorem load_normalizes_drive_urls :
    normalize_source (.url "https://drive.google.com/file/d/ABC123/view")
        = .url "https://drive.google.com/uc?id=ABC123"
      ∧ normalize_source (.url "https://drive.google.com/open?id=ABC123")
        = .url "https://drive.google.com/uc?id=ABC123"
      ∧ (∀ u : String, pyStartsWith u drive_file_head = false →
          pyStartsWith u drive_open_head = false →
          normalize_source (.url u) = .url u)
      ∧ ∀ h : String, normalize_source (.upload h) = .upload h := by
  refine ⟨by decide, by decide, ?_, fun h => rfl⟩
  intro u h1 h2
  simp [normalize_source, h1, h2]

/-- Witness for C3 at concrete inputs: a non-Drive URL and an uploaded
file both pass through unchanged. -/
theorem load_normalizes_drive_urls_witness :
    pyStartsWith "https://example.com/a.kml" drive_file_head = false
      ∧ pyStartsWith "https://example.com/a.kml" drive_open_head = false
      ∧ normalize_source (.url "https://example.com/a.kml")
          = .url "https://example.com/a.kml"
      ∧ normalize_source (.upload "field.kml") = .upload "field.kml" :=
  ⟨by decide, by decide,
    load_normalizes_drive_urls.2.2.1 "https://example.com/a.kml" (by decide) (by decide),
    load_normalizes_drive_urls.2.2.2 "field.kml"⟩

/-- C4: the 3D-to-2D step drops the third coordinate at every vertex — its
output carries no third coordinate anywhere, the (x, y) pairs of every
ring/part are identical to the input's, and a geometry with no third
coordinate passes through unchanged. -/
theorem shape_3d_to_2d_drops_z (s : Shape) :
    ((shape_3d_to_2d s).has_z = false
      ∧ mapCoords dropZ (shape_3d_to_2d s) = mapCoords dropZ s)
    ∧ (s.has_z = false → shape_3d_to_2d s = s) := by
  refine ⟨?_, fun h => by simp [shape_3d_to_2d, h]⟩
  by_cases h : s.has_z = true
  · rw [shape_3d_to_2d, if_pos h]
    refine ⟨hasZ_mapCoords_dropZ s, ?_⟩
    rw [mapCoords_mapCoords]
    congr 1
  · have h' : s.has_z = false := by simpa using h
    rw [shape_3d_to_2d, h']
    simp [h']

/-- Witness for C4: a 3D square loses its elevations while keeping its
(x, y) ring; an already-2D square passes through unchanged. -/
theorem shape_3d_to_2d_drops_z_witness :
    ((shape_3d_to_2d sq3d).has_z = false
      ∧ mapCoords dropZ (shape_3d_to_2d sq3d) = mapCoords dropZ sq3d)
    ∧ shape_3d_to_2d unitSquare = unitSquare :=
  ⟨(shape_3d_to_2d_drops_z sq3d).1, (shape_3d_to_2d_drops_z unitSquare).2 (by decide)⟩

/-- C5: check_valid_geometry succeeds exactly when the geometry's type is
"Polygon", fails with InvalidGeometryType carrying the actual type name
otherwise, and such a failure halts the request at the validation
boundary. -/
theorem check_valid_geometry_spec :
    (∀ (g : Shape) (a : List (String × String)), g.typeName = "Polygon" →
        check_valid_geometry ⟨g, a⟩ = .ok ())
      ∧ (∀ (g : Shape) (a : List (String × String)), g.typeName ≠ "Polygon" →
          check_valid_geometry ⟨g, a⟩ = .error (.invalidGeometryType g.typeName))
      ∧ (∀ (st : SessionState) (evs : List Event) (gdf : GeoDataFrame) (r : Record),
          gdf.head? = some r → r.geometry.typeName ≠ "Polygon" →
          (finish_request st evs gdf).outcome
            = .halted (.invalidGeometryType r.geometry.typeName)) := by
  refine ⟨fun g a h => by simp [check_valid_geometry, h],
    fun g a h => by simp [check_valid_geometry, h], ?_⟩
  intro st evs gdf r hhead ht
  simp [finish_request, hhead, check_valid_geometry, ht]

/-- Witness for C5: a Polygon record passes, a Point record fails with the
name "Point", and the request on a dataset headed by that Point halts. -/
theorem check_valid_geometry_spec_witness :
    check_valid_geometry squareRec = .ok ()
      ∧ check_valid_geometry pointRec = .error (.invalidGeometryType "Point")
      ∧ (finish_request ⟨none, none⟩ [] mixed_gdf).outcome
          = .halted (.invalidGeometryType "Point") :=
  ⟨check_valid_geometry_spec.1 unitSquare [] rfl,
    check_valid_geometry_spec.2.1 (.point ⟨0, 0, none⟩) [] (by decide),
    check_valid_geometry_spec.2.2 ⟨none, none⟩ [] mixed_gdf pointRec rfl (by decide)⟩

/-- C7: preprocess replaces only the geometry column — the result is the
record-wise map that rewrites each geometry and keeps each attribute
mapping, so attributes, record count and record order are all preserved
(and the transformation is a pure function of the dataset). -/
theorem preprocess_replaces_only_geometry (to_crs buffer0 : Shape → Shape)
    (gdf : GeoDataFrame) :
    preprocess_gdf to_crs buffer0 gdf
        = gdf.map (fun r => ⟨buffer0 (shape_3d_to_2d (to_crs r.geometry)), r.attrs⟩)
      ∧ (preprocess_gdf to_crs buffer0 gdf).map Record.attrs = gdf.map Record.attrs
      ∧ (preprocess_gdf to_crs buffer0 gdf).length = gdf.length :=
  ⟨preprocess_gdf_eq_map to_crs buffer0 gdf,
    preprocess_gdf_attrs to_crs buffer0 gdf,
    preprocess_gdf_length to_crs buffer0 gdf⟩

/-- C1 (refutation of "the first qualifying geometry is the one used
downstream"): on a fresh load of a dataset with geometry types
[Point, MultiPolygon, Polygon, Polygon], the scan does find the first
qualifying record at index 2, but the request then selects the record at
index 0 (app.py line 106) for validation, rendering and metrics — so it
halts with InvalidGeometryType "Point" instead of using the index-2
polygon, contradicting both the claim and the script's own warning that
the first polygon will be processed. -/
theorem first_valid_polygon_not_used :
    scan_first_valid mixed_gdf = some 2
      ∧ mixed_gdf[2]? = some squareRec
      ∧ run (idCollab mixed_gdf) ⟨none, none⟩ (.url "field.kml")
          = { state := ⟨some (.url "field.kml"), some mixed_gdf⟩,
              events := [.multiRecordWarning, .scannedForPolygon, .typeChecked "Point"],
              outcome := .halted (.invalidGeometryType "Point"),
              used_gdf := some mixed_gdf } :=
  ⟨by decide, by decide, by decide⟩

/-- C2: on a fresh load (cache miss) of a dataset none of whose records
carries a non-empty geometry of type exactly "Polygon", the request halts
with NoPolygonFound, the dataset is not cached, and nothing is rendered
(hence no metrics are produced). -/
theorem no_polygon_found_halts (C : Collaborators) (st : SessionState) (src : Source)
    (hmiss : cache_hit st src = false)
    (hnone : ∀ r ∈ preprocess_gdf C.to_crs C.buffer0 (C.read_file (normalize_source src)),
        is_valid_polygon r = false) :
    (run C st src).outcome = .halted .noPolygonFound
      ∧ (run C st src).state.input_gdf = st.input_gdf
      ∧ ∀ r : Record, (run C st src).outcome ≠ .rendered r := by
  have hscan : scan_first_valid
      (preprocess_gdf C.to_crs C.buffer0 (C.read_file (normalize_source src))) = none :=
    List.findIdx?_eq_none_iff.mpr hnone
  rw [run_miss C st src hmiss]
  unfold fresh_load
  simp [hscan]

/-- Witness for C2: a fresh request for a one-record Point dataset halts
with NoPolygonFound. -/
theorem no_polygon_found_halts_witness :
    cache_hit ⟨none, none⟩ (.url "pt.kml") = false
      ∧ (∀ r ∈ preprocess_gdf (idCollab [pointRec]).to_crs (idCollab [pointRec]).buffer0
            ((idCollab [pointRec]).read_file (normalize_source (.url "pt.kml"))),
          is_valid_polygon r = false)
      ∧ (run (idCollab [pointRec]) ⟨none, none⟩ (.url "pt.kml")).outcome
          = .halted .noPolygonFound :=
  ⟨by decide, by decide,
    (no_polygon_found_halts (idCollab [pointRec]) ⟨none, none⟩ (.url "pt.kml")
      (by decide) (by decide)).1⟩

theorem mem_finish_request_events (e : Event) (st : SessionState) (evs : List Event)
    (gdf : GeoDataFrame) (he : ∀ t, e ≠ Event.typeChecked t) :
    e ∈ (finish_request st evs gdf).events ↔ e ∈ evs := by
  rcases finish_request_events st evs gdf with h | ⟨t, h⟩
  · rw [h]
  · rw [h]
    simp [he t]

/-- C8: after a request that returned a rendered polygon, a second request
with the identical (raw) source identifier is a cache hit: it leaves the
session state unchanged and the dataset it operates on is exactly the
cached one, which is the dataset of the first call. -/
theorem cached_load_returns_same (C : Collaborators) (st : SessionState) (src : Source)
    (r : Record) (h : (run C st src).outcome = .rendered r) :
    (run C (run C st src).state src).state = (run C st src).state
      ∧ (run C (run C st src).state src).used_gdf = (run C st src).state.input_gdf
      ∧ (run C (run C st src).state src).used_gdf = (run C st src).used_gdf := by
  obtain ⟨h1, h2, h3⟩ := run_rendered_state C st src r h
  have hhit : cache_hit (run C st src).state src = true := by
    simp [cache_hit, h1, h2]
  have hsome : some ((run C st src).state.input_gdf.getD [])
      = (run C st src).state.input_gdf := by
    cases hgdf : (run C st src).state.input_gdf with
    | none => rw [hgdf] at h2; simp at h2
    | some g => rfl
  rw [run_hit C _ src hhit, finish_request_state, finish_request_used]
  exact ⟨rfl, hsome, hsome.trans h3.symm⟩

/-- Witness for C8: loading a one-square dataset renders it, and the
repeat request returns the cached dataset with the state unchanged. -/
theorem cached_load_returns_same_witness :
    (run (idCollab [squareRec]) ⟨none, none⟩ (.url "sq.kml")).outcome = .rendered squareRec
      ∧ ((run (idCollab [squareRec]) (run (idCollab [squareRec]) ⟨none, none⟩
              (.url "sq.kml")).state (.url "sq.kml")).state
            = (run (idCollab [squareRec]) ⟨none, none⟩ (.url "sq.kml")).state
        ∧ (run (idCollab [squareRec]) (run (idCollab [squareRec]) ⟨none, none⟩
              (.url "sq.kml")).state (.url "sq.kml")).used_gdf
            = (run (idCollab [squareRec]) ⟨none, none⟩ (.url "sq.kml")).state.input_gdf
        ∧ (run (idCollab [squareRec]) (run (idCollab [squareRec]) ⟨none, none⟩
              (.url "sq.kml")).state (.url "sq.kml")).used_gdf
            = (run (idCollab [squareRec]) ⟨none, none⟩ (.url "sq.kml")).used_gdf) :=
  ⟨by decide,
    cached_load_returns_same (idCollab [squareRec]) ⟨none, none⟩ (.url "sq.kml")
      squareRec (by decide)⟩

/-- C9: on a fresh load, the non-fatal only-first-polygon warning is
emitted exactly when the loaded dataset has more than one record (the
preprocessed dataset the script measures has the same length as the one
the reader returned). -/
theorem multi_record_warning_iff (C : Collaborators) (st : SessionState) (src : Source)
    (hmiss : cache_hit st src = false) :
    Event.multiRecordWarning ∈ (run C st src).events
      ↔ 1 < (C.read_file (normalize_source src)).length := by
  rw [run_miss C st src hmiss,
    ← preprocess_gdf_length C.to_crs C.buffer0 (C.read_file (normalize_source src))]
  unfold fresh_load
  set gdf := preprocess_gdf C.to_crs C.buffer0 (C.read_file (normalize_source src)) with hgdf
  cases hscan : scan_first_valid gdf with
  | none =>
    simp only [hscan]
    by_cases hd : is_drive_link src = true <;> by_cases hl : 1 < gdf.length <;>
      simp [hd, hl]
  | some i =>
    simp only [hscan]
    rw [mem_finish_request_events _ _ _ _ (fun t => by simp)]
    by_cases hd : is_drive_link src = true <;> by_cases hl : 1 < gdf.length <;>
      simp [hd, hl]

/-- Witness for C9: the four-record mixed dataset triggers the warning on
a fresh load. -/
theorem multi_record_warning_iff_witness :
    cache_hit ⟨none, none⟩ (.url "field.kml") = false
      ∧ (Event.multiRecordWarning
          ∈ (run (idCollab mixed_gdf) ⟨none, none⟩ (.url "field.kml")).events
        ↔ 1 < ((idCollab mixed_gdf).read_file
            (normalize_source (.url "field.kml"))).length) :=
  ⟨by decide,
    multi_record_warning_iff (idCollab mixed_gdf) ⟨none, none⟩ (.url "field.kml")
      (by decide)⟩

/-- C10: on a cache hit the request performs no URL normalization, emits
no multi-record warning and no polygon scan, cannot halt with
NoPolygonFound (so that failure only arises on a cache miss, proved in the
last conjunct for every request), and still re-validates the selected
geometry's type. -/
theorem cache_hit_skips_load (C : Collaborators) (st : SessionState) (src : Source)
    (hhit : cache_hit st src = true) (hne : st.input_gdf.getD [] ≠ []) :
    Event.normalizedURL ∉ (run C st src).events
      ∧ Event.multiRecordWarning ∉ (run C st src).events
      ∧ Event.scannedForPolygon ∉ (run C st src).events
      ∧ (run C st src).outcome ≠ .halted .noPolygonFound
      ∧ (∃ t, Event.typeChecked t ∈ (run C st src).events)
      ∧ ∀ (C' : Collaborators) (st' : SessionState) (src' : Source),
          (run C' st' src').outcome = .halted .noPolygonFound →
          cache_hit st' src' = false := by
  rw [run_hit C st src hhit]
  refine ⟨?_, ?_, ?_, finish_request_no_npf _ _ _, ?_, ?_⟩
  · rw [mem_finish_request_events _ _ _ _ (fun t => by simp)]; simp
  · rw [mem_finish_request_events _ _ _ _ (fun t => by simp)]; simp
  · rw [mem_finish_request_events _ _ _ _ (fun t => by simp)]; simp
  · cases hgdf : st.input_gdf.getD [] with
    | nil => exact absurd hgdf hne
    | cons r t =>
      refine ⟨r.geometry.typeName, ?_⟩
      by_cases ht : r.geometry.typeName = "Polygon" <;>
        simp [finish_request, hgdf, check_valid_geometry, ht]
  · intro C' st' src' hout
    by_cases hc : cache_hit st' src' = true
    · rw [run_hit C' st' src' hc] at hout
      exact absurd hout (finish_request_no_npf _ _ _)
    · simpa using hc

/-- Witness for C10: a session that already caches a one-square dataset
for its source performs no scan on the repeat request. -/
theorem cache_hit_skips_load_witness :
    cache_hit ⟨some (.url "sq.kml"), some [squareRec]⟩ (.url "sq.kml") = true
      ∧ (⟨some (.url "sq.kml"), some [squareRec]⟩ : SessionState).input_gdf.getD [] ≠ []
      ∧ Event.scannedForPolygon
          ∉ (run (idCollab []) ⟨some (.url "sq.kml"), some [squareRec]⟩
              (.url "sq.kml")).events :=
  ⟨by decide, by decide,
    (cache_hit_skips_load (idCollab []) ⟨some (.url "sq.kml"), some [squareRec]⟩
      (.url "sq.kml") (by decide) (by decide)).2.2.1⟩

/-- C6: the metrics table reports area in hectares as planar area divided
by 10000 and perimeter as planar boundary length, both displayed rounded
to 2 decimal places; for the unit square in a meter-unit planar CRS the
computed area is 0.0001 ha (displayed 0.00), the perimeter is 4 m
(displayed 4.00) and the planar centroid is (0.5, 0.5). -/
theorem unit_square_metrics :
    stats_area_ha squareRec = 1 / 10000
      ∧ round2 (stats_area_ha squareRec) = 0
      ∧ stats_perimeter_m squareRec = 4
      ∧ round2r (stats_perimeter_m squareRec) = 4
      ∧ stats_centroid squareRec = (1 / 2, 1 / 2) := by
  have harea : stats_area_ha squareRec = 1 / 10000 := by
    norm_num [stats_area_ha, squareRec, unitSquare, unitSquareRing, Shape.area,
      polyArea, ringArea, shoelaceSum, ringSegs, cross, abs_of_nonpos]
  have hperi : stats_perimeter_m squareRec = 4 := by
    simp only [stats_perimeter_m, squareRec, unitSquare, Shape.length, ringLen,
      ringSegs, unitSquareRing, segLen, List.zip_cons_cons, List.tail_cons,
      List.zip_nil_right, List.map_cons, List.map_nil, List.sum_cons, List.sum_nil]
    push_cast
    norm_num [Real.sqrt_one]
  have hcent : stats_centroid squareRec = (1 / 2, 1 / 2) := by
    norm_num [stats_centroid, squareRec, unitSquare, unitSquareRing, Shape.centroid,
      centroidOfRings, ringSegs, cross, Prod.ext_iff]
  refine ⟨harea, ?_, hperi, ?_, hcent⟩
  · rw [harea, round2, round_eq]
    norm_num
  · rw [hperi, round2r]
    have h400 : ((4 : ℝ) * 100) = ((400 : ℤ) : ℝ) := by push_cast; ring
    rw [h400, round_intCast]
    norm_num

end KML
